import Mathlib

/-!
Navigation guard of `frontend/src/router.js`.

A shallow embedding of the route table `routes` and of the global guard
`router.beforeEach` of `frontend/src/router.js`, together with the part of
vue-router that the file relies on: how a nested record gets its full path,
how the metadata of the matched records is merged into `to.meta`, and how a
`next({ name })` call restarts the navigation at the named route.
-/

namespace Router

/-! ## JavaScript values -/

/-- The JavaScript values the guard inspects: `undefined` (a missing property),
`null` (what `localStorage.getItem` gives for a missing key), booleans and
strings. -/
inductive JSValue where
  | undefined
  | null
  | bool (b : Bool)
  | str (s : String)
  deriving DecidableEq, Repr

/-- JavaScript truthiness (`ToBoolean`): `undefined`, `null`, `false` and the
empty string are falsy, every other value is truthy. -/
def JSValue.truthy : JSValue → Bool
  | .undefined => false
  | .null => false
  | .bool b => b
  | .str s => decide (s ≠ "")

/-- Strict equality `===` on the values above: same type and same value. -/
def JSValue.strictEq (a b : JSValue) : Bool := decide (a = b)

/-- A plain object, as an insertion-ordered list of own properties. -/
abbrev Obj := List (String × JSValue)

/-- Property read `o.k`: the value of the own property, `undefined` if absent. -/
def Obj.get (o : Obj) (k : String) : JSValue :=
  match o.lookup k with
  | some v => v
  | none => .undefined

/-- Property write `o[k] = v`: replaces the value of an existing property,
otherwise appends the property. -/
def Obj.set : Obj → String → JSValue → Obj
  | [], k, v => [(k, v)]
  | (k0, v0) :: rest, k, v =>
    if k0 = k then (k0, v) :: rest else (k0, v0) :: Obj.set rest k v

/-- The value of `Object.assign(target, source)`: every own property of
`source` is written to `target`, in order. -/
def Obj.assign (target source : Obj) : Obj :=
  source.foldl (fun o kv => Obj.set o kv.1 kv.2) target

/-! ## Route table -/

/-- The view components imported at the top of `router.js`. -/
inductive View where
  | Login
  | Chat
  | AdminLogin
  | AdminLayout
  | AdminUsers
  | AdminRecords
  | AdminStats
  | AdminConfig
  | AdminTasks
  | AdminCards
  deriving DecidableEq, Repr

/-- A route record as written in the `routes` array: `path`, optional `name`,
optional `component`, optional `redirect`, `meta` (the empty object when the
record declares none) and `children`. -/
inductive RouteRecordRaw where
  | mk (path : String) (name : Option String) (component : Option View)
      (redirect : Option String) (meta : Obj) (children : List RouteRecordRaw)

/-- The `routes` constant of `router.js`, lines 13 to 31. -/
def routes : List RouteRecordRaw :=
  [ .mk "/" (some "Login") (some .Login) none [] [],
    .mk "/chat" (some "Chat") (some .Chat) none [] [],
    .mk "/admin" (some "AdminLogin") (some .AdminLogin) none [] [],
    .mk "/admin/dashboard" none (some .AdminLayout) none
      [("requiresAdminAuth", .bool true)]
      [ .mk "" none none (some "/admin/dashboard/users") [] [],
        .mk "users" (some "AdminUsers") (some .AdminUsers) none [] [],
        .mk "records" (some "AdminRecords") (some .AdminRecords) none [] [],
        .mk "tasks" (some "AdminTasks") (some .AdminTasks) none [] [],
        .mk "cards" (some "AdminCards") (some .AdminCards) none [] [],
        .mk "stats" (some "AdminStats") (some .AdminStats) none [] [],
        .mk "config" (some "AdminConfig") (some .AdminConfig) none [] [] ] ]

/-! ## The part of vue-router the file relies on -/

/-- A record after vue-router normalised it: `path` is the full path. -/
structure NormalizedRecord where
  path : String
  name : Option String
  component : Option View
  redirect : Option String
  meta : Obj
  deriving DecidableEq, Repr

/-- A matcher: a normalised record with the chain of its ancestors, outermost
first (what vue-router collects by following the `parent` links). -/
structure Matcher where
  record : NormalizedRecord
  ancestors : List NormalizedRecord
  deriving DecidableEq, Repr

/-- The records a location matched on this matcher: ancestors, then itself. -/
def Matcher.matched (m : Matcher) : List NormalizedRecord :=
  m.ancestors ++ [m.record]

/-- The full path of a record, as vue-router's `addRoute` computes it: a path
that starts with `/` is kept; any other path of a nested record is appended to
the parent's path, with a `/` between the two unless the parent's path ends in
one or the child's path is empty. -/
def joinPath (parent : Option Matcher) (path : String) : String :=
  match parent with
  | none => path
  | some p =>
    if path.data.head? = some '/' then path
    else
      let parentPath := p.record.path
      let connectingSlash := if parentPath.data.getLast? = some '/' then "" else "/"
      parentPath ++ (if path = "" then "" else connectingSlash ++ path)

mutual
/-- The matchers vue-router's `addRoute` creates for one record of the table
and, recursively, for its children, in the order of the declaration. -/
def addRoute (parent : Option Matcher) : RouteRecordRaw → List Matcher
  | .mk path name component redirect meta children =>
    let m : Matcher :=
      { record := { path := joinPath parent path, name := name,
                    component := component, redirect := redirect, meta := meta },
        ancestors := match parent with
          | none => []
          | some p => p.matched }
    m :: addRoutes (some m) children
/-- The matchers of a list of sibling records. -/
def addRoutes (parent : Option Matcher) : List RouteRecordRaw → List Matcher
  | [] => []
  | r :: rs => addRoute parent r ++ addRoutes parent rs
end

/-- The matchers of `createRouter({ history, routes })`. -/
def matchers : List Matcher := addRoutes none routes

/-- The `meta` of a resolved location, vue-router's `mergeMetaFields`:
`matched.reduce((meta, record) => assign(meta, record.meta), {})`. -/
def mergeMetaFields (matched : List NormalizedRecord) : Obj :=
  matched.foldl (fun meta record => Obj.assign meta record.meta) []

/-- The fields of a resolved route location that this file reads or sets. -/
structure RouteLocation where
  name : JSValue
  path : String
  meta : Obj
  deriving DecidableEq, Repr

/-- The location a matcher resolves to. -/
def Matcher.location (m : Matcher) : RouteLocation :=
  { name := match m.record.name with
      | some n => .str n
      | none => .undefined,
    path := m.record.path,
    meta := mergeMetaFields m.matched }

/-- Resolution of the location `{ name: n }`: the matcher that declares the
name `n`, if there is one. -/
def resolveName (ms : List Matcher) (n : String) : Option RouteLocation :=
  (ms.find? (fun m => decide (m.record.name = some n))).map Matcher.location

/-! ## Storage and the guard -/

/-- The content of `localStorage`: the stored key/value pairs. -/
abbrev Storage := List (String × String)

/-- The value of `localStorage.getItem(key)`: the stored string, `null` when
nothing is stored under the key. -/
def getItem (ls : Storage) (key : String) : JSValue :=
  match ls.lookup key with
  | some v => .str v
  | none => .null

/-- The argument of one call of `next`. -/
inductive NextCall where
  | proceed
  | location (name : String)
  deriving DecidableEq, Repr

/-- The guard installed by `router.beforeEach`, lines 39 to 55: the calls of
`next` it makes, in order. `toLoc` and `fromLoc` are the parameters `to` and
`from`; the guard never reads `from`. -/
def beforeEach (ls : Storage) (toLoc _fromLoc : RouteLocation) : List NextCall :=
  let userKey := getItem ls "userKey"
  if (toLoc.name.strictEq (.str "Chat") && !userKey.truthy) = true then
    [.location "Login"]
  else
    let adminToken := getItem ls "adminToken"
    if ((toLoc.meta.get "requiresAdminAuth").truthy && !adminToken.truthy) = true then
      [.location "AdminLogin"]
    else
      [.proceed]

/-- What vue-router does with the guard's calls of `next`: `next()` confirms
the navigation to `toLoc`; `next({ name })` abandons it and starts a
navigation to the route of that name, from the same origin, on which the guard
runs again. The result is the location finally confirmed and the number of
redirections before it; `none` when the fuel runs out or a name resolves to
no route. -/
def navigate (ms : List Matcher) (ls : Storage) (fromLoc : RouteLocation) :
    Nat → RouteLocation → Option (RouteLocation × Nat)
  | 0, _ => none
  | fuel + 1, toLoc =>
    match beforeEach ls toLoc fromLoc with
    | [.proceed] => some (toLoc, 0)
    | [.location n] =>
      match resolveName ms n with
      | some target =>
        match navigate ms ls fromLoc fuel target with
        | some (final, k) => some (final, k + 1)
        | none => none
      | none => none
    | _ => none

/-! ## The decision as the specification words it -/

/-- The three outcomes the specification names. -/
inductive Decision where
  | redirectLogin
  | redirectAdminLogin
  | allow
  deriving DecidableEq, Repr

/-- The call of `next` that carries out a decision. -/
def Decision.call : Decision → NextCall
  | .redirectLogin => .location "Login"
  | .redirectAdminLogin => .location "AdminLogin"
  | .allow => .proceed

/-- A credential is present under a key when a non-empty string is stored
under it. -/
def credentialPresent (ls : Storage) (key : String) : Bool :=
  match ls.lookup key with
  | some v => decide (v ≠ "")
  | none => false

/-- The destination is the chat view: it is the route named `Chat`. -/
def isChatView (toLoc : RouteLocation) : Bool :=
  match toLoc.name with
  | .str n => decide (n = "Chat")
  | _ => false

/-- The destination carries the admin-auth metadata flag: its metadata has
`requiresAdminAuth` set to `true` (or to a non-empty string). -/
def carriesAdminFlag (toLoc : RouteLocation) : Bool :=
  match toLoc.meta.lookup "requiresAdminAuth" with
  | some (.bool b) => b
  | some (.str s) => decide (s ≠ "")
  | _ => false

/-- The ordered three-step decision of the specification's section 4.1. -/
def specDecision (ls : Storage) (toLoc : RouteLocation) : Decision :=
  if isChatView toLoc = true ∧ credentialPresent ls "userKey" = false then
    .redirectLogin
  else if carriesAdminFlag toLoc = true ∧ credentialPresent ls "adminToken" = false then
    .redirectAdminLogin
  else
    .allow

/-! ## Auxiliary facts -/

theorem truthy_getItem (ls : Storage) (key : String) :
    (getItem ls key).truthy = credentialPresent ls key := by
  unfold getItem credentialPresent
  cases ls.lookup key <;> rfl

theorem strictEq_chat (toLoc : RouteLocation) :
    toLoc.name.strictEq (.str "Chat") = isChatView toLoc := by
  unfold JSValue.strictEq isChatView
  cases toLoc.name <;> simp

theorem truthy_flag (toLoc : RouteLocation) :
    (toLoc.meta.get "requiresAdminAuth").truthy = carriesAdminFlag toLoc := by
  unfold Obj.get carriesAdminFlag
  cases h : toLoc.meta.lookup "requiresAdminAuth" with
  | none => rfl
  | some v => cases v <;> rfl

theorem resolveName_Login :
    resolveName matchers "Login" = some ⟨.str "Login", "/", []⟩ := by decide

theorem resolveName_Chat :
    resolveName matchers "Chat" = some ⟨.str "Chat", "/chat", []⟩ := by decide

theorem resolveName_AdminLogin :
    resolveName matchers "AdminLogin" = some ⟨.str "AdminLogin", "/admin", []⟩ := by decide

/-- The six named children of `/admin/dashboard` resolve to locations that keep
their own name and whose merged metadata is the parent's. -/
theorem resolveName_adminChild (n : String)
    (hn : n ∈ ["AdminUsers", "AdminRecords", "AdminTasks", "AdminCards", "AdminStats",
      "AdminConfig"]) :
    ∃ toLoc, resolveName matchers n = some toLoc ∧ toLoc.name = .str n ∧
      toLoc.meta = [("requiresAdminAuth", .bool true)] ∧ n ≠ "Chat" := by
  simp only [List.mem_cons, List.mem_singleton, List.not_mem_nil, or_false] at hn
  rcases hn with h | h | h | h | h | h <;> subst h
  · exact ⟨⟨_, "/admin/dashboard/users", _⟩, by decide, rfl, rfl, by decide⟩
  · exact ⟨⟨_, "/admin/dashboard/records", _⟩, by decide, rfl, rfl, by decide⟩
  · exact ⟨⟨_, "/admin/dashboard/tasks", _⟩, by decide, rfl, rfl, by decide⟩
  · exact ⟨⟨_, "/admin/dashboard/cards", _⟩, by decide, rfl, rfl, by decide⟩
  · exact ⟨⟨_, "/admin/dashboard/stats", _⟩, by decide, rfl, rfl, by decide⟩
  · exact ⟨⟨_, "/admin/dashboard/config", _⟩, by decide, rfl, rfl, by decide⟩

/-- With a truthy value under both keys the guard confirms every navigation. -/
theorem beforeEach_both_present (ls : Storage) (toLoc fromLoc : RouteLocation)
    (hu : (getItem ls "userKey").truthy = true)
    (ha : (getItem ls "adminToken").truthy = true) :
    beforeEach ls toLoc fromLoc = [.proceed] := by
  simp [beforeEach, hu, ha]

/-- The guard confirms every navigation to a destination that is not named
`Chat` and whose metadata has no `requiresAdminAuth`. -/
theorem beforeEach_open (ls : Storage) (toLoc fromLoc : RouteLocation)
    (hn : toLoc.name.strictEq (.str "Chat") = false)
    (hm : (toLoc.meta.get "requiresAdminAuth").truthy = false) :
    beforeEach ls toLoc fromLoc = [.proceed] := by
  simp [beforeEach, hn, hm]

/-- The guard makes one of three calls of `next`. -/
theorem beforeEach_cases (ls : Storage) (toLoc fromLoc : RouteLocation) :
    beforeEach ls toLoc fromLoc = [.proceed] ∨
    beforeEach ls toLoc fromLoc = [.location "Login"] ∨
    beforeEach ls toLoc fromLoc = [.location "AdminLogin"] := by
  simp only [beforeEach]
  by_cases h1 : (toLoc.name.strictEq (.str "Chat") && !(getItem ls "userKey").truthy) = true
  · simp [h1]
  · by_cases h2 : ((toLoc.meta.get "requiresAdminAuth").truthy
        && !(getItem ls "adminToken").truthy) = true
    · simp [h1, h2]
    · simp [h1, h2]

/-! ## The guard -/

/-- C1: for every destination whose name is `Chat` (the route `/chat` of the
table is one), every origin and every storage, whatever is stored under
`adminToken`: if nothing is stored under `userKey`, the guard makes exactly one
call of `next`, with `{ name: 'Login' }`, so the navigation does not proceed. -/
theorem chat_without_userKey_redirects_to_Login (ls : Storage)
    (toLoc fromLoc : RouteLocation) (hto : toLoc.name = .str "Chat")
    (hkey : getItem ls "userKey" = .null) :
    beforeEach ls toLoc fromLoc = [.location "Login"] := by
  simp [beforeEach, hto, hkey, JSValue.strictEq, JSValue.truthy]

/-- Witness of C1: the resolved route `Chat`, coming from `/`, with an admin
token stored and no user key. -/
theorem chat_without_userKey_redirects_to_Login_witness :
    resolveName matchers "Chat" = some ⟨.str "Chat", "/chat", []⟩ ∧
    getItem [("adminToken", "t")] "userKey" = .null ∧
    beforeEach [("adminToken", "t")] ⟨.str "Chat", "/chat", []⟩ ⟨.str "Login", "/", []⟩
      = [.location "Login"] :=
  ⟨by decide, by decide,
    chat_without_userKey_redirects_to_Login [("adminToken", "t")] ⟨.str "Chat", "/chat", []⟩
      ⟨.str "Login", "/", []⟩ rfl (by decide)⟩

/-- C2: each of the six named children of `/admin/dashboard` resolves to a
destination on which, for every origin and every storage, whatever is stored
under `userKey`, the guard makes exactly one call of `next`, with
`{ name: 'AdminLogin' }`, if nothing is stored under `adminToken`. -/
theorem adminChild_without_adminToken_redirects_to_AdminLogin (ls : Storage)
    (fromLoc : RouteLocation) (n : String)
    (hn : n ∈ ["AdminUsers", "AdminRecords", "AdminTasks", "AdminCards", "AdminStats",
      "AdminConfig"])
    (htok : getItem ls "adminToken" = .null) :
    ∃ toLoc, resolveName matchers n = some toLoc ∧ toLoc.name = .str n ∧
      beforeEach ls toLoc fromLoc = [.location "AdminLogin"] := by
  obtain ⟨toLoc, hres, hname, hmeta, hne⟩ := resolveName_adminChild n hn
  refine ⟨toLoc, hres, hname, ?_⟩
  simp [beforeEach, hname, hmeta, htok, hne, JSValue.strictEq, JSValue.truthy, Obj.get,
    List.lookup]

/-- Witness of C2: the route `AdminTasks`, coming from `/chat`, with a user key
stored and no admin token. -/
theorem adminChild_without_adminToken_redirects_to_AdminLogin_witness :
    getItem [("userKey", "u")] "adminToken" = .null ∧
    ∃ toLoc, resolveName matchers "AdminTasks" = some toLoc ∧
      toLoc.name = .str "AdminTasks" ∧
      beforeEach [("userKey", "u")] toLoc ⟨.str "Chat", "/chat", []⟩
        = [.location "AdminLogin"] :=
  ⟨by decide,
    adminChild_without_adminToken_redirects_to_AdminLogin [("userKey", "u")]
      ⟨.str "Chat", "/chat", []⟩ "AdminTasks" (by decide) (by decide)⟩

/-- C3: when both `userKey` and `adminToken` hold a credential (a non-empty
string), every route the table declares by name (`Login`, `Chat`, `AdminLogin`
and the six children of `/admin/dashboard`) resolves to a destination on which
the guard, for every origin, makes exactly one call of `next`, with no
argument: the navigation proceeds to that destination. -/
theorem both_credentials_allow_every_declared_route (ls : Storage)
    (fromLoc : RouteLocation) (n : String)
    (hn : n ∈ ["Login", "Chat", "AdminLogin", "AdminUsers", "AdminRecords", "AdminTasks",
      "AdminCards", "AdminStats", "AdminConfig"])
    (hu : ∃ u, getItem ls "userKey" = .str u ∧ u ≠ "")
    (ha : ∃ a, getItem ls "adminToken" = .str a ∧ a ≠ "") :
    ∃ toLoc, resolveName matchers n = some toLoc ∧ toLoc.name = .str n ∧
      beforeEach ls toLoc fromLoc = [.proceed] := by
  obtain ⟨u, hu, hu0⟩ := hu
  obtain ⟨a, ha, ha0⟩ := ha
  have hboth : ∀ toLoc, beforeEach ls toLoc fromLoc = [.proceed] := fun toLoc =>
    beforeEach_both_present ls toLoc fromLoc (by simp [hu, hu0, JSValue.truthy])
      (by simp [ha, ha0, JSValue.truthy])
  simp only [List.mem_cons, List.mem_singleton, List.not_mem_nil, or_false] at hn
  rcases hn with h | h | h | h
  · subst h; exact ⟨_, resolveName_Login, rfl, hboth _⟩
  · subst h; exact ⟨_, resolveName_Chat, rfl, hboth _⟩
  · subst h; exact ⟨_, resolveName_AdminLogin, rfl, hboth _⟩
  · obtain ⟨toLoc, hres, hname, -, -⟩ := resolveName_adminChild n (by simpa using h)
    exact ⟨toLoc, hres, hname, hboth toLoc⟩

/-- Witness of C3: the route `AdminConfig`, coming from `/chat`, with both
credentials stored. -/
theorem both_credentials_allow_every_declared_route_witness :
    ∃ toLoc, resolveName matchers "AdminConfig" = some toLoc ∧
      toLoc.name = .str "AdminConfig" ∧
      beforeEach [("userKey", "u"), ("adminToken", "t")] toLoc ⟨.str "Chat", "/chat", []⟩
        = [.proceed] :=
  both_credentials_allow_every_declared_route [("userKey", "u"), ("adminToken", "t")]
    ⟨.str "Chat", "/chat", []⟩ "AdminConfig" (by decide) ⟨"u", by decide, by decide⟩
    ⟨"t", by decide, by decide⟩

/-- C4: for every destination (any name, any metadata), every origin and every
storage, the guard makes exactly one call of `next`, the one that carries out
the ordered three-step decision of the specification; in particular a
destination named `Chat` that also carries `requiresAdminAuth`, reached with
nothing stored under either key, is sent to `Login` and not to `AdminLogin`. -/
theorem beforeEach_eq_specDecision (ls : Storage) (toLoc fromLoc : RouteLocation) :
    beforeEach ls toLoc fromLoc = [(specDecision ls toLoc).call] ∧
    (toLoc.name = .str "Chat" → toLoc.meta.get "requiresAdminAuth" = .bool true →
      getItem ls "userKey" = .null → getItem ls "adminToken" = .null →
      beforeEach ls toLoc fromLoc = [.location "Login"]) := by
  constructor
  · unfold beforeEach specDecision
    simp only [strictEq_chat, truthy_flag, truthy_getItem]
    cases isChatView toLoc <;> cases carriesAdminFlag toLoc <;>
      cases credentialPresent ls "userKey" <;> cases credentialPresent ls "adminToken" <;>
      simp [Decision.call]
  · intro hto _ hkey _
    simp [beforeEach, hto, hkey, JSValue.strictEq, JSValue.truthy]

/-- Witness of C4: a destination named `Chat` whose metadata carries
`requiresAdminAuth`, with an empty storage. -/
theorem beforeEach_eq_specDecision_witness :
    specDecision [] ⟨.str "Chat", "/chat", [("requiresAdminAuth", .bool true)]⟩
      = .redirectLogin ∧
    beforeEach [] ⟨.str "Chat", "/chat", [("requiresAdminAuth", .bool true)]⟩
      ⟨.str "Login", "/", []⟩ = [.location "Login"] :=
  ⟨by decide,
    (beforeEach_eq_specDecision [] ⟨.str "Chat", "/chat", [("requiresAdminAuth", .bool true)]⟩
      ⟨.str "Login", "/", []⟩).2 rfl (by decide) (by decide) (by decide)⟩

/-- C5, as stated, fails: the storages `userKey ↦ ""` and `userKey ↦ "k"` have
a value stored under exactly the same keys (`userKey` only), yet on the
destination `Chat` the guard redirects to `Login` for the first and lets the
navigation proceed for the second. -/
theorem presence_of_a_value_does_not_decide :
    ((List.lookup "userKey" [("userKey", "")]).isSome
        = (List.lookup "userKey" [("userKey", "k")]).isSome ∧
      (List.lookup "adminToken" [("userKey", "")]).isSome
        = (List.lookup "adminToken" [("userKey", "k")]).isSome) ∧
    beforeEach [("userKey", "")] ⟨.str "Chat", "/chat", []⟩ ⟨.str "Login", "/", []⟩
      = [.location "Login"] ∧
    beforeEach [("userKey", "k")] ⟨.str "Chat", "/chat", []⟩ ⟨.str "Login", "/", []⟩
      = [.proceed] := by
  decide

/-- C5, amended: the guard's decision depends only on whether a non-empty
string is stored under each key. For every destination and origin, two
storages in which the same keys among `userKey` and `adminToken` hold a
non-empty string give the same calls of `next`. -/
theorem beforeEach_depends_only_on_credentialPresent (ls1 ls2 : Storage)
    (toLoc fromLoc : RouteLocation)
    (hu : credentialPresent ls1 "userKey" = credentialPresent ls2 "userKey")
    (ha : credentialPresent ls1 "adminToken" = credentialPresent ls2 "adminToken") :
    beforeEach ls1 toLoc fromLoc = beforeEach ls2 toLoc fromLoc := by
  unfold beforeEach
  simp only [truthy_getItem, hu, ha]

/-- Witness of C5, amended: an absent user key and an empty one, on the
destination `Chat`. -/
theorem beforeEach_depends_only_on_credentialPresent_witness :
    credentialPresent [] "userKey" = credentialPresent [("userKey", "")] "userKey" ∧
    credentialPresent [] "adminToken" = credentialPresent [("userKey", "")] "adminToken" ∧
    beforeEach [] ⟨.str "Chat", "/chat", []⟩ ⟨.str "Login", "/", []⟩
      = beforeEach [("userKey", "")] ⟨.str "Chat", "/chat", []⟩ ⟨.str "Login", "/", []⟩ :=
  ⟨by decide, by decide,
    beforeEach_depends_only_on_credentialPresent [] [("userKey", "")]
      ⟨.str "Chat", "/chat", []⟩ ⟨.str "Login", "/", []⟩ (by decide) (by decide)⟩

/-! ## The route table -/

/-- C6: each of the six named children of `/admin/dashboard` declares no
metadata of its own, has the record `/admin/dashboard` as its only ancestor,
and resolves to a destination whose merged metadata has `requiresAdminAuth`
set to `true`; the routes `Login`, `Chat` and `AdminLogin` are top-level and
resolve to destinations without the flag; and every record whose resolved
metadata carries the flag is `/admin/dashboard` or one of its children. -/
theorem adminChildren_inherit_requiresAdminAuth :
    (∀ n ∈ ["AdminUsers", "AdminRecords", "AdminTasks", "AdminCards", "AdminStats",
        "AdminConfig"],
      ∃ m ∈ matchers, m.record.name = some n ∧
        m.ancestors.map (fun r => (r.path, r.meta))
          = [("/admin/dashboard", [("requiresAdminAuth", .bool true)])] ∧
        m.record.meta = [] ∧
        resolveName matchers n = some m.location ∧
        m.location.meta.get "requiresAdminAuth" = .bool true) ∧
    (∀ n ∈ ["Login", "Chat", "AdminLogin"],
      ∃ m ∈ matchers, m.record.name = some n ∧ m.ancestors = [] ∧
        resolveName matchers n = some m.location ∧
        m.location.meta.get "requiresAdminAuth" = .undefined) ∧
    (∀ m ∈ matchers, (m.location.meta.get "requiresAdminAuth").truthy = true →
      m.record.path = "/admin/dashboard" ∨
        m.ancestors.map (fun r => r.path) = ["/admin/dashboard"]) := by
  refine ⟨?_, ?_, ?_⟩ <;> decide

/-- C7: the names declared in the route table, top-level records and children
of `/admin/dashboard` alike, are the nine names below and no two records
declare the same one; in particular exactly one record is named `Login` and
exactly one is named `AdminLogin`, the two redirect targets of the guard. -/
theorem route_names_unique :
    matchers.filterMap (fun m => m.record.name)
      = ["Login", "Chat", "AdminLogin", "AdminUsers", "AdminRecords", "AdminTasks",
          "AdminCards", "AdminStats", "AdminConfig"] ∧
    (matchers.filterMap (fun m => m.record.name)).Nodup ∧
    (matchers.filter (fun m => decide (m.record.name = some "Login"))).length = 1 ∧
    (matchers.filter (fun m => decide (m.record.name = some "AdminLogin"))).length = 1 := by
  refine ⟨?_, ?_, ?_, ?_⟩ <;> decide

/-- C8, as stated, fails: the route table declares the full path
`/admin/dashboard` (the layout record, and its child with the empty path),
which is not among the nine paths of the claim. -/
theorem admin_dashboard_path_is_declared :
    "/admin/dashboard" ∈ matchers.map (fun m => m.record.path) ∧
    "/admin/dashboard" ∉ ["/", "/chat", "/admin", "/admin/dashboard/users",
      "/admin/dashboard/records", "/admin/dashboard/tasks", "/admin/dashboard/cards",
      "/admin/dashboard/stats", "/admin/dashboard/config"] := by
  constructor <;> decide

/-- C8, amended: the records of the route table that declare a name are bound,
by full path, to the nine views of the claim; besides them the table declares
the full path `/admin/dashboard` twice, for the unnamed layout record (view
`AdminLayout`) and for its unnamed child with the empty path, which redirects
to `/admin/dashboard/users`; no other path is declared. -/
theorem declared_paths :
    matchers.filterMap (fun m => m.record.name.map (fun n => (m.record.path, n, m.record.component)))
      = [("/", "Login", some .Login), ("/chat", "Chat", some .Chat),
          ("/admin", "AdminLogin", some .AdminLogin),
          ("/admin/dashboard/users", "AdminUsers", some .AdminUsers),
          ("/admin/dashboard/records", "AdminRecords", some .AdminRecords),
          ("/admin/dashboard/tasks", "AdminTasks", some .AdminTasks),
          ("/admin/dashboard/cards", "AdminCards", some .AdminCards),
          ("/admin/dashboard/stats", "AdminStats", some .AdminStats),
          ("/admin/dashboard/config", "AdminConfig", some .AdminConfig)] ∧
    (matchers.filter (fun m => decide (m.record.name = none))).map
        (fun m => (m.record.path, m.record.component, m.record.redirect))
      = [("/admin/dashboard", some .AdminLayout, none),
          ("/admin/dashboard", none, some "/admin/dashboard/users")] ∧
    matchers.length = 11 := by
  refine ⟨?_, ?_, ?_⟩ <;> decide

/-! ## Redirections and independence of the two credentials -/

/-- C9: for every storage (an empty one included) and every origin, the guard
lets the navigation to the resolved route `Login` proceed, and likewise to the
resolved route `AdminLogin`; hence every navigation attempt, to any
destination, is confirmed after at most one redirection (two runs of the guard
are always enough). -/
theorem no_redirect_loop (ls : Storage) (toLoc fromLoc : RouteLocation) (fuel : Nat) :
    (∃ loginLoc, resolveName matchers "Login" = some loginLoc ∧
      beforeEach ls loginLoc fromLoc = [.proceed]) ∧
    (∃ adminLoginLoc, resolveName matchers "AdminLogin" = some adminLoginLoc ∧
      beforeEach ls adminLoginLoc fromLoc = [.proceed]) ∧
    (∃ final k, navigate matchers ls fromLoc (fuel + 2) toLoc = some (final, k) ∧ k ≤ 1) := by
  have hL : beforeEach ls ⟨.str "Login", "/", []⟩ fromLoc = [.proceed] :=
    beforeEach_open ls _ fromLoc (by decide) (by decide)
  have hA : beforeEach ls ⟨.str "AdminLogin", "/admin", []⟩ fromLoc = [.proceed] :=
    beforeEach_open ls _ fromLoc (by decide) (by decide)
  refine ⟨⟨_, resolveName_Login, hL⟩, ⟨_, resolveName_AdminLogin, hA⟩, ?_⟩
  rcases beforeEach_cases ls toLoc fromLoc with h | h | h
  · exact ⟨toLoc, 0, by simp [navigate, h], by omega⟩
  · exact ⟨⟨.str "Login", "/", []⟩, 1,
      by simp [navigate, h, resolveName_Login, hL], by omega⟩
  · exact ⟨⟨.str "AdminLogin", "/admin", []⟩, 1,
      by simp [navigate, h, resolveName_AdminLogin, hA], by omega⟩

/-- C10: on the resolved route `Chat`, two storages that agree on `userKey`
give the same calls of `next`, and a non-empty user key alone makes the guard
proceed; on each of the six named children of `/admin/dashboard`, two storages
that agree on `adminToken` give the same calls of `next`, and a non-empty
admin token alone makes the guard proceed. -/
theorem credentials_do_not_interfere (ls1 ls2 : Storage) (fromLoc : RouteLocation) :
    (∃ chatLoc, resolveName matchers "Chat" = some chatLoc ∧
      (getItem ls1 "userKey" = getItem ls2 "userKey" →
        beforeEach ls1 chatLoc fromLoc = beforeEach ls2 chatLoc fromLoc) ∧
      ((getItem ls1 "userKey").truthy = true →
        beforeEach ls1 chatLoc fromLoc = [.proceed])) ∧
    (∀ n ∈ ["AdminUsers", "AdminRecords", "AdminTasks", "AdminCards", "AdminStats",
        "AdminConfig"],
      ∃ toLoc, resolveName matchers n = some toLoc ∧
        (getItem ls1 "adminToken" = getItem ls2 "adminToken" →
          beforeEach ls1 toLoc fromLoc = beforeEach ls2 toLoc fromLoc) ∧
        ((getItem ls1 "adminToken").truthy = true →
          beforeEach ls1 toLoc fromLoc = [.proceed])) := by
  constructor
  · refine ⟨_, resolveName_Chat, ?_, ?_⟩
    · intro h
      simp [beforeEach, h, Obj.get, JSValue.truthy]
    · intro h
      have hflag : (Obj.get ([] : Obj) "requiresAdminAuth").truthy = false := rfl
      simp [beforeEach, h, hflag]
  · intro n hn
    obtain ⟨toLoc, hres, hname, hmeta, hne⟩ := resolveName_adminChild n hn
    refine ⟨toLoc, hres, ?_, ?_⟩
    · intro h
      simp [beforeEach, h, hname, hne, JSValue.strictEq]
    · intro h
      simp [beforeEach, h, hname, hne, JSValue.strictEq]

/-- Witness of C10: a storage with a user key only and one with a user key and
an admin token agree on `userKey` and are treated alike on `Chat`; a storage
with an admin token only and one with both agree on `adminToken` and are
treated alike on `AdminUsers`. -/
theorem credentials_do_not_interfere_witness :
    (beforeEach [("userKey", "u")] ⟨.str "Chat", "/chat", []⟩ ⟨.str "Login", "/", []⟩
      = beforeEach [("userKey", "u"), ("adminToken", "t")] ⟨.str "Chat", "/chat", []⟩
          ⟨.str "Login", "/", []⟩) ∧
    (∃ toLoc, resolveName matchers "AdminUsers" = some toLoc ∧
      beforeEach [("adminToken", "t")] toLoc ⟨.str "Login", "/", []⟩
        = beforeEach [("userKey", "u"), ("adminToken", "t")] toLoc ⟨.str "Login", "/", []⟩ ∧
      beforeEach [("adminToken", "t")] toLoc ⟨.str "Login", "/", []⟩ = [.proceed]) := by
  constructor
  · obtain ⟨chatLoc, hres, hsame, -⟩ :=
      (credentials_do_not_interfere [("userKey", "u")] [("userKey", "u"), ("adminToken", "t")]
        ⟨.str "Login", "/", []⟩).1
    have hloc : chatLoc = ⟨.str "Chat", "/chat", []⟩ :=
      Option.some.inj (hres.symm.trans resolveName_Chat)
    subst hloc
    exact hsame (by decide)
  · obtain ⟨toLoc, hres, hsame, hgo⟩ :=
      (credentials_do_not_interfere [("adminToken", "t")] [("userKey", "u"), ("adminToken", "t")]
        ⟨.str "Login", "/", []⟩).2 "AdminUsers" (by decide)
    exact ⟨toLoc, hres, hsame (by decide), hgo (by decide)⟩

end Router
